import Mathlib

/-!
Shallow embedding of the photo-gallery client in `src/App.tsx`.

The component is a single React function component.  Its state hooks
(`photos`, `page`, `loading`, `mode`, `query`, `debouncedQuery`, `error`,
`history`) and refs (`cacheRef`) are modelled as fields of `AppState`.
The async `getPhotos` callback is split into the synchronous part that runs
up to the `await fetch` (`getPhotosStart`) and the continuation that runs
when the response arrives (`getPhotosComplete`); the common case where the
response is processed before any other event is their composition
(`getPhotos`).  Network I/O is a parameter `net : String → FetchResult`
mapping the request URL to its outcome.  The browser pieces (`setTimeout`
debouncing, the IntersectionObserver callback, `localStorage`) are modelled
as explicit step functions on the state.
-/

namespace Gallery

/-- The `mode` state: `useState<"popular" | "latest">("popular")`. -/
inductive Mode where
  | popular
  | latest
deriving DecidableEq, Repr

/-- String interpolation of a mode value, as produced by the template
literals in `App.tsx` (`${mode}`). -/
def Mode.str : Mode → String
  | .popular => "popular"
  | .latest => "latest"

/-- The `urls` field of the `Photo` type in `App.tsx`. -/
structure PhotoUrls where
  small : String
  regular : String
deriving DecidableEq, Repr

/-- The `user.links` field of the `Photo` type. -/
structure UserLinks where
  html : String
deriving DecidableEq, Repr

/-- The `user` field of the `Photo` type. -/
structure UserInfo where
  name : String
  links : UserLinks
deriving DecidableEq, Repr

/-- The `Photo` record type of `App.tsx` (nullable fields become `Option`). -/
structure Photo where
  id : String
  alt_description : Option String
  description : Option String
  urls : PhotoUrls
  user : UserInfo
  width : Nat
  height : Nat
deriving DecidableEq, Repr

/-- The ref `cacheRef.current : Record<string, Record<number, Photo[]>>`, modelled as
a partial map from cache key and page number to the stored page. -/
def Cache : Type := String → Nat → Option (List Photo)

/-- The empty cache (`{}`, the initial value of `cacheRef`). -/
def Cache.empty : Cache := fun _ _ => none

/-- Storing `cacheRef.current[cacheKey][pageNum] = results` (lines 86-87):
store one page under one key, leaving every other entry unchanged. -/
def Cache.store (c : Cache) (key : String) (pageNum : Nat)
    (results : List Photo) : Cache :=
  fun k p => if k = key ∧ p = pageNum then some results else c k p

/-- The component state: one field per `useState` hook plus the cache ref and
the browser's `localStorage` map. -/
structure AppState where
  photos : List Photo
  page : Nat
  loading : Bool
  mode : Mode
  query : String
  debouncedQuery : String
  error : Option String
  history : List String
  cache : Cache
  localStore : String → Option String

/-- The state after the initial render: all hooks at their `useState`
initial values, the cache ref empty. -/
def initialState : AppState where
  photos := []
  page := 1
  loading := false
  mode := .popular
  query := ""
  debouncedQuery := ""
  error := none
  history := []
  cache := Cache.empty
  localStore := fun _ => none

/-- Line 58: `` const cacheKey = `${debouncedQuery || mode}` ``.  JS `||`
takes the mode exactly when the query string is falsy, i.e. empty. -/
def cacheKeyOf (debouncedQuery : String) (mode : Mode) : String :=
  if debouncedQuery = "" then mode.str else debouncedQuery

/-- Lines 70-75: the request URL.  `if (debouncedQuery)` tests JS
truthiness, i.e. that the string is non-empty. -/
def buildUrl (debouncedQuery : String) (mode : Mode) (pageNum : Nat) : String :=
  if debouncedQuery = "" then
    "https://api.unsplash.com/photos?page=" ++ toString pageNum ++
      "&per_page=20&order_by=" ++ mode.str
  else
    "https://api.unsplash.com/search/photos?page=" ++ toString pageNum ++
      "&per_page=20&query=" ++ debouncedQuery

/-- The parsed JSON response body, as the JS value seen at line 84.  The code
reads it either as an array (`data`, the `/photos` endpoint) or through its
`results` field (`data.results`, the `/search/photos` endpoint); only the
view matching the request's endpoint carries meaningful data, and the code
reads exactly that one. -/
structure ApiData where
  asList : List Photo
  results : List Photo
deriving Repr

/-- Line 84: `const results = debouncedQuery ? data.results : data`. -/
def pickResults (debouncedQuery : String) (data : ApiData) : List Photo :=
  if debouncedQuery = "" then data.asList else data.results

/-- Outcome of `await fetch(...)` followed by `await res.json()`: either the
parsed body or a thrown exception carrying its `message`. -/
inductive FetchResult where
  | success (data : ApiData)
  | failure (msg : String)

/-- Lines 91-96: the history update performed after a successful
replacing search. -/
def pushHistory (q : String) (prev : List String) : List String :=
  (q :: prev.filter (fun h => h ≠ q)).take 5

/-- A request that has been issued and is in flight.  The fields record the
values the async closure captured from its render: `debouncedQuery` (used at
line 84 and lines 91-96) and the derived `cacheKey`, plus the call
arguments `pageNum` and `replace`. -/
structure AsyncRequest where
  url : String
  cacheKey : String
  pageNum : Nat
  replace : Bool
  usedQuery : String
deriving Repr

/-- Result of running `getPhotos` up to (and excluding) the `await`:
either the function returned synchronously, or it is now awaiting `fetch`. -/
inductive StartResult where
  | done (st : AppState)
  | fetching (st : AppState) (req : AsyncRequest)

/-- Lines 52-81 of `getPhotos(pageNum, replace)`: the key check, the cache
lookup, and — on a miss — `setLoading(true)`, `setError(null)` and the start
of the fetch.  `hasKey` is the truthiness of the `ACCESS_KEY` constant. -/
def getPhotosStart (hasKey : Bool) (st : AppState) (pageNum : Nat)
    (replace : Bool) : StartResult :=
  if !hasKey then
    .done { st with error := some "No API key found." }
  else
    let cacheKey := cacheKeyOf st.debouncedQuery st.mode
    match st.cache cacheKey pageNum with
    | some cachedPage =>
        .done { st with
          photos := if replace then cachedPage else st.photos ++ cachedPage }
    | none =>
        .fetching { st with loading := true, error := none }
          { url := buildUrl st.debouncedQuery st.mode pageNum
            cacheKey := cacheKey
            pageNum := pageNum
            replace := replace
            usedQuery := st.debouncedQuery }

/-- Lines 83-101: the continuation after the `await`s.  On success the page
is cached, committed to the photo list, and (for a replacing search) pushed
onto the history; on a thrown exception the `catch` block sets the error
message (JS `e.message || "Something went wrong"` falls back exactly when
the message is the empty string).  Either way the `finally` block resets
`loading`.  The state `st` is the state at arrival time: the `setPhotos`
updater reads the then-current list. -/
def getPhotosComplete (st : AppState) (req : AsyncRequest)
    (outcome : FetchResult) : AppState :=
  match outcome with
  | .failure msg =>
      { st with
        error := some (if msg = "" then "Something went wrong" else msg)
        loading := false }
  | .success data =>
      let results := pickResults req.usedQuery data
      { st with
        cache := st.cache.store req.cacheKey req.pageNum results
        photos := if req.replace then results else st.photos ++ results
        history :=
          if req.replace ∧ req.usedQuery ≠ "" then
            pushHistory req.usedQuery st.history
          else st.history
        loading := false }

/-- A whole `getPhotos(pageNum, replace)` invocation in which the response
arrives with no interleaved event: the start, then — if a fetch was issued —
its completion with `net url`.  The second component lists the URLs fetched
by this invocation. -/
def getPhotos (hasKey : Bool) (st : AppState) (pageNum : Nat) (replace : Bool)
    (net : String → FetchResult) : AppState × List String :=
  match getPhotosStart hasKey st pageNum replace with
  | .done st' => (st', [])
  | .fetching st' req => (getPhotosComplete st' req (net req.url), [req.url])

/-- Lines 106-110: the effect that runs when `mode` or `debouncedQuery`
changes: `setPhotos([]); setPage(1); getPhotos(1, true)`. -/
def resetEffect (hasKey : Bool) (st : AppState) : StartResult :=
  getPhotosStart hasKey { st with photos := [], page := 1 } 1 true

/-- Lines 112-126: the IntersectionObserver callback for one entry.
`if (entry.isIntersecting && !loading) setPage((p) => p + 1)`. -/
def observerStep (st : AppState) (isIntersecting : Bool) : AppState :=
  if isIntersecting && !st.loading then { st with page := st.page + 1 } else st

/-- The `rootMargin` the observer is configured with (line 122). -/
def observerRootMargin : String := "400px"

/-- Lines 128-132: the effect on `page` changes: `if (page > 1)
getPhotos(page)` — note `replace` is left at its default `false`.  Returns
the `(pageNum, replace)` arguments of the call it makes, if any. -/
def pageEffectCall (st : AppState) : Option (Nat × Bool) :=
  if st.page > 1 then some (st.page, false) else none

/-- Lines 134-137: `handleHistoryClick` sets both `query` and
`debouncedQuery` to the clicked term. -/
def handleHistoryClick (st : AppState) (term : String) : AppState :=
  { st with query := term, debouncedQuery := term }

/-- JS `String.prototype.trim()` (used at line 37 as `query.trim()`):
remove leading and trailing whitespace. -/
def jsTrim (s : String) : String :=
  String.mk (((s.data.dropWhile Char.isWhitespace).reverse.dropWhile
    Char.isWhitespace).reverse)

/-! ## The debounce timer (lines 35-40)

The effect on `query` schedules `setDebouncedQuery(query.trim())` after
500 ms and cancels the previously scheduled call.  Being single-threaded,
the component sees a sequence of two kinds of events: an input edit (which
re-runs the effect: the pending timer is cleared and a new one is armed
with the freshly captured `query`), and the 500 ms delay elapsing with no
further edit, which fires the pending timer.  `requests` counts the runs of
the reset effect (lines 106-110) caused by `debouncedQuery` changing —
React skips the update (and hence the effect) when `setDebouncedQuery`
receives the value it already holds, so a fire only counts when the trimmed
value differs. -/

/-- An event seen by the debounce logic. -/
inductive DebEvent where
  | edit (s : String)
  | settle

/-- The slice of component state the debounce logic touches, plus the
pending `setTimeout` (carrying the captured `query`) and a counter of
reset-effect runs triggered by `debouncedQuery` changes. -/
structure DebState where
  query : String
  debouncedQuery : String
  timer : Option String
  requests : Nat
deriving DecidableEq, Repr

/-- One debounce event: an edit restarts the timer with the new value; a
settle fires the pending timer, if any. -/
def debStep (st : DebState) : DebEvent → DebState
  | .edit s => { st with query := s, timer := some s }
  | .settle =>
    match st.timer with
    | none => st
    | some v =>
      { st with
        debouncedQuery := jsTrim v
        timer := none
        requests :=
          if jsTrim v ≠ st.debouncedQuery then st.requests + 1
          else st.requests }

/-- Run a sequence of debounce events. -/
def debRun (st : DebState) (evs : List DebEvent) : DebState :=
  evs.foldl debStep st

/-! ## History persistence (lines 42-49)

`JSON.stringify` / `JSON.parse` restricted to what this component ever
stores: arrays of strings, serialized without whitespace — exactly the
sub-language `JSON.stringify(history)` produces. -/

/-- The lowercase hex digit for `n < 16`, as produced by `JSON.stringify`
when escaping a control character. -/
def hexDigit (n : Nat) : Char :=
  if n < 10 then Char.ofNat (48 + n) else Char.ofNat (87 + n)

/-- The `JSON.stringify` escaping of one character inside a string literal:
`"` and `\` get a backslash, the named control characters use their short
escapes, the remaining control characters become `\u00xx`, and everything
else is emitted literally. -/
def escapeChar (c : Char) : List Char :=
  if c = '"' then ['\\', '"']
  else if c = '\\' then ['\\', '\\']
  else if c = Char.ofNat 8 then ['\\', 'b']
  else if c = Char.ofNat 9 then ['\\', 't']
  else if c = Char.ofNat 10 then ['\\', 'n']
  else if c = Char.ofNat 12 then ['\\', 'f']
  else if c = Char.ofNat 13 then ['\\', 'r']
  else if c.toNat < 32 then
    ['\\', 'u', '0', '0', hexDigit (c.toNat / 16), hexDigit (c.toNat % 16)]
  else [c]

/-- Escape a whole string body character by character. -/
def escapeList : List Char → List Char
  | [] => []
  | c :: cs => escapeChar c ++ escapeList cs

/-- One JSON string literal, quotes included. -/
def quoteChars (s : String) : List Char :=
  '"' :: (escapeList s.data ++ ['"'])

/-- The comma-separated elements of a JSON array of strings. -/
def elemsChars : List String → List Char
  | [] => []
  | [s] => quoteChars s
  | s :: s2 :: rest => quoteChars s ++ ',' :: elemsChars (s2 :: rest)

/-- Line 48: `JSON.stringify(history)` for a string array:
`[` elements `]`. -/
def stringifyHistory (l : List String) : String :=
  String.mk ('[' :: (elemsChars l ++ [']']))

/-- The numeric value of one hex digit, upper or lower case. -/
def hexVal (c : Char) : Option Nat :=
  if '0' ≤ c ∧ c ≤ '9' then some (c.toNat - 48)
  else if 'a' ≤ c ∧ c ≤ 'f' then some (c.toNat - 87)
  else if 'A' ≤ c ∧ c ≤ 'F' then some (c.toNat - 55)
  else none

/-- The character denoted by a single-character JSON escape. -/
def unescapeChar (e : Char) : Option Char :=
  if e = '"' then some '"'
  else if e = '\\' then some '\\'
  else if e = '/' then some '/'
  else if e = 'b' then some (Char.ofNat 8)
  else if e = 't' then some (Char.ofNat 9)
  else if e = 'n' then some (Char.ofNat 10)
  else if e = 'f' then some (Char.ofNat 12)
  else if e = 'r' then some (Char.ofNat 13)
  else none

/-- Parse a JSON string body after its opening quote, returning the decoded
characters and the input remaining after the closing quote.  Unescaped
control characters are rejected, as `JSON.parse` rejects them. -/
def parseStringBody : List Char → Option (List Char × List Char)
  | [] => none
  | c :: rest =>
    if c = '"' then some ([], rest)
    else if c = '\\' then
      match rest with
      | [] => none
      | e :: rest2 =>
        if e = 'u' then
          match rest2 with
          | h1 :: h2 :: h3 :: h4 :: rest3 =>
            match hexVal h1, hexVal h2, hexVal h3, hexVal h4 with
            | some a, some b, some g, some d =>
              (parseStringBody rest3).map
                (fun p => (Char.ofNat (((a * 16 + b) * 16 + g) * 16 + d) :: p.1, p.2))
            | _, _, _, _ => none
          | _ => none
        else
          match unescapeChar e with
          | some u => (parseStringBody rest2).map (fun p => (u :: p.1, p.2))
          | none => none
    else if c.toNat < 32 then none
    else (parseStringBody rest).map (fun p => (c :: p.1, p.2))

/-- Parse the elements of a non-empty string array, positioned at the
opening quote of the next element; the input must end exactly at the
closing `]`.  The fuel only bounds the number of elements (each element
consumes at least two characters, so the input length is enough fuel). -/
def parseElems : Nat → List Char → Option (List String)
  | 0, _ => none
  | fuel + 1, cs =>
    match cs with
    | '"' :: rest =>
      match parseStringBody rest with
      | none => none
      | some (s, rest2) =>
        match rest2 with
        | [']'] => some [String.mk s]
        | ',' :: rest3 => (parseElems fuel rest3).map (fun l => String.mk s :: l)
        | _ => none
    | _ => none

/-- The character-level body of `parseHistory`: a `[`, then either an
immediate `]` (the empty array) or the comma-separated elements ending at
the final `]`. -/
def parseHistoryChars : List Char → Option (List String)
  | [] => none
  | c :: rest =>
    if c = '[' then
      if rest = [']'] then some [] else parseElems rest.length rest
    else none

/-- Line 44's `JSON.parse(stored)`, on the sub-language this component
stores: a whitespace-free JSON array of strings.  (On any other JSON text
the stored value did not come from this component's own
`JSON.stringify(history)` writes; parsing it yields `none` here.) -/
def parseHistory (s : String) : Option (List String) :=
  parseHistoryChars s.data

/-- Lines 47-49: the effect persisting every change of `history` to
`localStorage` under the key `"search-history"`. -/
def persistHistoryEffect (st : AppState) : AppState :=
  { st with
    localStore := fun k =>
      if k = "search-history" then some (stringifyHistory st.history)
      else st.localStore k }

/-- Lines 42-45: the mount effect restoring the history.  `if (stored)` is
JS truthiness, so a missing key or an empty string leaves the history
alone; otherwise the stored text is parsed and becomes the history
(`none` models `JSON.parse` failing on text this component never wrote). -/
def loadHistoryEffect (st : AppState) : Option AppState :=
  match st.localStore "search-history" with
  | none => some st
  | some stored =>
    if stored = "" then some st
    else (parseHistory stored).map (fun l => { st with history := l })

/-! ## A concrete race between an in-flight request and a newer one

`getPhotos` holds no cancellation token and checks nothing on arrival: the
continuation after the `await` commits whatever response arrives, keyed by
the values its closure captured.  The trace below mounts the app (request
`r1` for the popular feed), switches to the search `"cats"` before `r1`
lands (request `r2`), lets the *newer* `r2` complete first, and then lets
the stale `r1` complete. -/

/-- A photo with the given id (remaining fields arbitrary but fixed). -/
def samplePhoto (i : String) : Photo where
  id := i
  alt_description := none
  description := none
  urls := { small := "s", regular := "r" }
  user := { name := "u", links := { html := "h" } }
  width := 1
  height := 1

/-- The popular-feed response of the race trace. -/
def stalePage : List Photo := [samplePhoto "stale-popular"]

/-- The `"cats"` search response of the race trace. -/
def freshPage : List Photo := [samplePhoto "fresh-cats"]

/-- A page used to exhibit the cache-key collision between the search feed
for the literal query `"popular"` and the popular-mode feed. -/
def collisionPage : List Photo := [samplePhoto "searched-the-word-popular"]

/-- The `"cats"` search response of the repeated-search trace below. -/
def catsPage : List Photo := [samplePhoto "cats-1"]

/-- The `"dogs"` search response of the repeated-search trace below. -/
def dogsPage : List Photo := [samplePhoto "dogs-1"]

/-- Three consecutive searches with no interleaving: `"cats"` (fetched),
`"dogs"` (fetched), then `"cats"` again — now a cache hit.  Each step is
the reset effect's `setPhotos([]); setPage(1); getPhotos(1, true)` with
the response arriving undisturbed.  The third search replaces the photo
list from the cache (lines 61-64) and returns before the history update
at lines 91-96 is reached. -/
def cacheHitSearchFinal : AppState :=
  let s1 := (getPhotos true
    { initialState with debouncedQuery := "cats", photos := [], page := 1 } 1 true
    (fun _ => .success { asList := [], results := catsPage })).1
  let s2 := (getPhotos true
    { s1 with debouncedQuery := "dogs", photos := [], page := 1 } 1 true
    (fun _ => .success { asList := [], results := dogsPage })).1
  (getPhotos true
    { s2 with debouncedQuery := "cats", photos := [], page := 1 } 1 true
    (fun _ => .success { asList := [], results := [] })).1

/-- The final state of the race trace described above; the `.done`
fallbacks are never reached (both starts miss the empty cache). -/
def raceFinal : AppState :=
  match resetEffect true initialState with
  | .done st => st
  | .fetching st1 r1 =>
    match resetEffect true (handleHistoryClick st1 "cats") with
    | .done st => st
    | .fetching st3 r2 =>
      let st4 := getPhotosComplete st3 r2 (.success { asList := [], results := freshPage })
      getPhotosComplete st4 r1 (.success { asList := stalePage, results := [] })

/-! ## Round-trip of the history serialization -/

/-- Decoding a hex digit this serializer produced gives back its value. -/
theorem hexVal_hexDigit : ∀ n < 16, hexVal (hexDigit n) = some n := by decide

/-- Parsing consumes one escaped character and continues. -/
theorem parseStringBody_escapeChar (c : Char) (t : List Char) :
    parseStringBody (escapeChar c ++ t) =
      (parseStringBody t).map (fun p => (c :: p.1, p.2)) := by
  unfold escapeChar
  split_ifs with h1 h2 h3 h4 h5 h6 h7 h8
  · subst h1; rw [List.cons_append, List.cons_append, parseStringBody.eq_def]
    simp [unescapeChar]
  · subst h2; rw [List.cons_append, List.cons_append, parseStringBody.eq_def]
    simp [unescapeChar]
  · subst h3; rw [List.cons_append, List.cons_append, parseStringBody.eq_def]
    simp [unescapeChar]
  · subst h4; rw [List.cons_append, List.cons_append, parseStringBody.eq_def]
    simp [unescapeChar]
  · subst h5; rw [List.cons_append, List.cons_append, parseStringBody.eq_def]
    simp [unescapeChar]
  · subst h6; rw [List.cons_append, List.cons_append, parseStringBody.eq_def]
    simp [unescapeChar]
  · subst h7; rw [List.cons_append, List.cons_append, parseStringBody.eq_def]
    simp [unescapeChar]
  · have e0 : hexVal '0' = some 0 := by decide
    have e1 : hexVal (hexDigit (c.toNat / 16)) = some (c.toNat / 16) :=
      hexVal_hexDigit _ (by omega)
    have e2 : hexVal (hexDigit (c.toNat % 16)) = some (c.toNat % 16) :=
      hexVal_hexDigit _ (by omega)
    have hdm : c.toNat / 16 * 16 + c.toNat % 16 = c.toNat := by omega
    have key : Char.ofNat (c.toNat / 16 * 16 + c.toNat % 16) = c := by
      rw [hdm, Char.ofNat_toNat]
    simp only [List.cons_append]
    rw [parseStringBody.eq_def]
    simp [e0, e1, e2, key]
  · simp only [List.cons_append, List.nil_append]
    rw [parseStringBody.eq_def]
    simp [h1, h2, h8]

/-- Parsing an escaped string body up to its closing quote recovers it. -/
theorem parseStringBody_escapeList (s t : List Char) :
    parseStringBody (escapeList s ++ '"' :: t) = some (s, t) := by
  induction s with
  | nil =>
    rw [escapeList, List.nil_append, parseStringBody.eq_def]
    simp
  | cons c cs ih =>
    rw [escapeList, List.append_assoc, parseStringBody_escapeChar, ih]
    rfl

/-- A string array never serializes to fewer characters than it has
elements (each element costs at least its two quotes). -/
theorem length_le_length_elemsChars_succ (l : List String) :
    l.length ≤ (elemsChars l).length + 1 := by
  induction l with
  | nil => simp [elemsChars]
  | cons s rest ih =>
    cases rest with
    | nil => simp [elemsChars]
    | cons s2 r =>
      rw [elemsChars]
      have hq : 1 ≤ (quoteChars s).length := by simp [quoteChars]
      simp only [List.length_cons, List.length_append] at ih ⊢
      omega

/-- Parsing the serialized elements of a non-empty history recovers it,
given fuel for at least one step per element. -/
theorem parseElems_elemsChars (l : List String) :
    ∀ fuel, l ≠ [] → l.length ≤ fuel →
      parseElems fuel (elemsChars l ++ [']']) = some l := by
  induction l with
  | nil => intro fuel h _; exact absurd rfl h
  | cons s rest ih =>
    intro fuel _ hf
    cases fuel with
    | zero => simp at hf
    | succ fuel =>
      cases rest with
      | nil =>
        rw [elemsChars, quoteChars, parseElems.eq_def]
        simp only [List.cons_append, List.append_assoc, List.singleton_append]
        simp [parseStringBody_escapeList]
      | cons s2 r =>
        rw [elemsChars, quoteChars, parseElems.eq_def]
        simp only [List.cons_append, List.append_assoc, List.singleton_append]
        have hrec := ih fuel (by simp)
          (by simp only [List.length_cons] at hf ⊢; omega)
        simp [parseStringBody_escapeList, hrec]

/-- Parsing the serialization of any history list yields that same list:
the storage round-trip of lines 44 and 48 is the identity. -/
theorem parseHistory_stringifyHistory (l : List String) :
    parseHistory (stringifyHistory l) = some l := by
  cases l with
  | nil => rfl
  | cons s rest =>
    obtain ⟨Y, hY⟩ : ∃ Y, elemsChars (s :: rest) = '"' :: Y := by
      cases rest with
      | nil =>
        exact ⟨escapeList s.data ++ ['"'], by simp [elemsChars, quoteChars]⟩
      | cons s2 r =>
        exact ⟨escapeList s.data ++ ['"'] ++ ',' :: elemsChars (s2 :: r),
          by simp [elemsChars, quoteChars]⟩
    show parseHistoryChars ('[' :: (elemsChars (s :: rest) ++ [']'])) = some (s :: rest)
    have hne : ¬(elemsChars (s :: rest) ++ [']'] = [']']) := by
      rw [hY]; simp
    rw [parseHistoryChars.eq_def]
    simp only [if_pos rfl, if_neg hne]
    refine parseElems_elemsChars (s :: rest) _ (by simp) ?_
    have h := length_le_length_elemsChars_succ (s :: rest)
    simp only [List.length_append, List.length_cons, List.length_nil] at h ⊢
    omega

/-! ## Debounce lemmas -/

/-- A block of consecutive edits only moves `query` and re-arms the timer
with the last edit; `debouncedQuery` and the request count are untouched. -/
theorem debRun_edits (st : DebState) (es : List String) (h : es ≠ []) :
    debRun st (es.map DebEvent.edit) =
      { st with query := es.getLast h, timer := some (es.getLast h) } := by
  induction es generalizing st with
  | nil => exact absurd rfl h
  | cons s rest ih =>
    cases rest with
    | nil => rfl
    | cons s2 r =>
      have step : debRun st ((s :: s2 :: r).map DebEvent.edit) =
          debRun (debStep st (.edit s)) ((s2 :: r).map DebEvent.edit) := rfl
      rw [step, ih (debStep st (.edit s)) (by simp)]
      have hlast : (s :: s2 :: r).getLast h = (s2 :: r).getLast (by simp) :=
        List.getLast_cons (by simp)
      rw [hlast]
      rfl

/-! ## Claims -/

/-- C1 (counterexample): the cache is NOT injectively keyed by query/mode.
The search feed for the literal query `"popular"` and the no-query
popular-mode feed are distinct feeds, yet they derive the same cache key,
and a page fetched by the search feed is read back verbatim by the
popular-mode feed's cache lookup. -/
theorem cacheKey_collision :
    cacheKeyOf "popular" Mode.popular = cacheKeyOf "" Mode.popular ∧
    ("popular" : String) ≠ "" ∧
    (getPhotos true { initialState with debouncedQuery := "popular" } 1 true
        (fun _ => FetchResult.success { asList := [], results := collisionPage })).1.cache
      (cacheKeyOf "" Mode.popular) 1 = some collisionPage := by
  refine ⟨rfl, by decide, by rfl⟩

/-- C1 (amended): distinct feeds get distinct cache keys, EXCEPT that a
search whose query is the literal name of a mode (`"popular"` or
`"latest"`) shares that mode feed's cache key: two non-empty queries
differ iff their keys differ, the two mode feeds have distinct keys, and a
non-empty query collides with no mode feed unless it spells a mode name. -/
theorem cacheKey_separation :
    (∀ q1 q2 : String, ∀ m1 m2 : Mode, q1 ≠ "" → q2 ≠ "" → q1 ≠ q2 →
      cacheKeyOf q1 m1 ≠ cacheKeyOf q2 m2) ∧
    (∀ m1 m2 : Mode, m1 ≠ m2 → cacheKeyOf "" m1 ≠ cacheKeyOf "" m2) ∧
    (∀ q : String, ∀ m1 m2 : Mode, q ≠ "" → q ≠ "popular" → q ≠ "latest" →
      cacheKeyOf q m1 ≠ cacheKeyOf "" m2) := by
  refine ⟨?_, ?_, ?_⟩
  · intro q1 q2 m1 m2 h1 h2 hne
    simpa [cacheKeyOf, h1, h2] using hne
  · intro m1 m2 hne
    cases m1 <;> cases m2 <;> simp [cacheKeyOf, Mode.str] <;> exact hne rfl
  · intro q m1 m2 hq hp hl
    cases m2 <;> simp [cacheKeyOf, hq, Mode.str] <;> assumption

/-- C1 (witness): the separation applied at concrete feeds. -/
theorem cacheKey_separation_witness :
    cacheKeyOf "dogs" Mode.popular ≠ cacheKeyOf "cats" Mode.popular ∧
    cacheKeyOf "" Mode.popular ≠ cacheKeyOf "" Mode.latest ∧
    cacheKeyOf "cats" Mode.popular ≠ cacheKeyOf "" Mode.popular :=
  ⟨cacheKey_separation.1 "dogs" "cats" Mode.popular Mode.popular
      (by decide) (by decide) (by decide),
    cacheKey_separation.2.1 Mode.popular Mode.latest (by decide),
    cacheKey_separation.2.2 "cats" Mode.popular Mode.popular
      (by decide) (by decide) (by decide)⟩

/-- C2 (counterexample): after the settling delay the debounced query is
the TRIMMED input, not the input value itself: for the single edit
`" a "`, the settled debounced query is `"a"` while the input is `" a "`. -/
theorem debounce_trim_counterexample :
    (debRun { query := "", debouncedQuery := "", timer := none, requests := 0 }
        [DebEvent.edit " a ", DebEvent.settle]).query = " a " ∧
    (debRun { query := "", debouncedQuery := "", timer := none, requests := 0 }
        [DebEvent.edit " a ", DebEvent.settle]).debouncedQuery = "a" ∧
    ("a" : String) ≠ " a " := by decide

/-- C2 (amended): for every non-empty sequence of edits, once the 500 ms
timer (cancelled and re-armed on each edit) finally fires, the debounced
query equals the TRIM of the last input value; the edits themselves fire
no request, and the settle fires at most one. -/
theorem debounce_settles_trimmed (st : DebState) (es : List String) (h : es ≠ []) :
    (debRun st (es.map DebEvent.edit ++ [DebEvent.settle])).debouncedQuery =
      jsTrim (es.getLast h) ∧
    (debRun st (es.map DebEvent.edit)).requests = st.requests ∧
    (debRun st (es.map DebEvent.edit ++ [DebEvent.settle])).requests ≤
      st.requests + 1 := by
  have hrun : debRun st (es.map DebEvent.edit ++ [DebEvent.settle]) =
      debStep (debRun st (es.map DebEvent.edit)) DebEvent.settle := by
    simp [debRun, List.foldl_append]
  rw [hrun, debRun_edits st es h]
  refine ⟨rfl, rfl, ?_⟩
  simp only [debStep]
  split <;> omega

/-- C2 (witness): typing `"x"` then `" cats "` and letting the timer fire
settles the debounced query to `"cats"` with a single request. -/
theorem debounce_settles_trimmed_witness :
    (debRun { query := "", debouncedQuery := "", timer := none, requests := 0 }
        (["x", " cats "].map DebEvent.edit ++ [DebEvent.settle])).debouncedQuery =
      jsTrim " cats " ∧
    (debRun { query := "", debouncedQuery := "", timer := none, requests := 0 }
        (["x", " cats "].map DebEvent.edit)).requests = 0 ∧
    (debRun { query := "", debouncedQuery := "", timer := none, requests := 0 }
        (["x", " cats "].map DebEvent.edit ++ [DebEvent.settle])).requests ≤ 0 + 1 :=
  debounce_settles_trimmed
    { query := "", debouncedQuery := "", timer := none, requests := 0 }
    ["x", " cats "] (by decide)

/-- C3: failure handling is the single `try/catch` around the one network
call: every invocation fetches at most once, and when the fetch (or body
parsing) throws, the error state becomes the exception's message (or
`"Something went wrong"` when that message is empty), `loading` is reset,
the photo list and the cache are untouched, and exactly that one URL was
fetched — no retry. -/
theorem getPhotos_failure (hasKey : Bool) (st : AppState) (p : Nat)
    (replace : Bool) (net : String → FetchResult) :
    (getPhotos hasKey st p replace net).2.length ≤ 1 ∧
    (∀ msg, hasKey = true →
      st.cache (cacheKeyOf st.debouncedQuery st.mode) p = none →
      net (buildUrl st.debouncedQuery st.mode p) = FetchResult.failure msg →
      (getPhotos hasKey st p replace net).1.error =
        some (if msg = "" then "Something went wrong" else msg) ∧
      (getPhotos hasKey st p replace net).1.loading = false ∧
      (getPhotos hasKey st p replace net).1.photos = st.photos ∧
      (getPhotos hasKey st p replace net).1.cache = st.cache ∧
      (getPhotos hasKey st p replace net).2 =
        [buildUrl st.debouncedQuery st.mode p]) := by
  constructor
  · unfold getPhotos
    cases getPhotosStart hasKey st p replace <;> simp
  · intro msg hk hc hn
    subst hk
    have hstart : getPhotosStart true st p replace =
        .fetching { st with loading := true, error := none }
          { url := buildUrl st.debouncedQuery st.mode p
            cacheKey := cacheKeyOf st.debouncedQuery st.mode
            pageNum := p
            replace := replace
            usedQuery := st.debouncedQuery } := by
      unfold getPhotosStart
      simp [hc]
    unfold getPhotos
    rw [hstart]
    simp [getPhotosComplete, hn]

/-- C3 (witness): a failing fetch with message `"boom"` at the initial
state. -/
theorem getPhotos_failure_witness :
    (getPhotos true initialState 1 true
        (fun _ => FetchResult.failure "boom")).2.length ≤ 1 ∧
    (getPhotos true initialState 1 true
        (fun _ => FetchResult.failure "boom")).1.error = some "boom" ∧
    (getPhotos true initialState 1 true
        (fun _ => FetchResult.failure "boom")).1.photos = initialState.photos :=
  ⟨(getPhotos_failure true initialState 1 true
      (fun _ => FetchResult.failure "boom")).1,
    ((getPhotos_failure true initialState 1 true
      (fun _ => FetchResult.failure "boom")).2 "boom" rfl rfl rfl).1,
    ((getPhotos_failure true initialState 1 true
      (fun _ => FetchResult.failure "boom")).2 "boom" rfl rfl rfl).2.2.1⟩

/-- C4: when the sentinel intersects (the observer already carries the
400px root margin in its configuration) and no load is in progress, the
page counter increases by exactly one; the page effect calls
`getPhotos(page)` with `replace = false` whenever `page > 1`; and a
`replace = false` invocation only ever appends to the photo list, never
replaces it. -/
theorem pagination_appends :
    (∀ st : AppState, st.loading = false →
      observerStep st true = { st with page := st.page + 1 }) ∧
    (∀ st : AppState, 1 < st.page → pageEffectCall st = some (st.page, false)) ∧
    (∀ (st : AppState) (hasKey : Bool) (net : String → FetchResult),
      ∃ suffix, (getPhotos hasKey st st.page false net).1.photos =
        st.photos ++ suffix) := by
  refine ⟨?_, ?_, ?_⟩
  · intro st h
    simp [observerStep, h]
  · intro st h
    simp [pageEffectCall, h]
  · intro st hasKey net
    unfold getPhotos getPhotosStart
    cases hasKey with
    | false => exact ⟨[], by simp⟩
    | true =>
      simp only [Bool.not_true, Bool.false_eq_true, if_false]
      cases hc : st.cache (cacheKeyOf st.debouncedQuery st.mode) st.page with
      | some cached => exact ⟨cached, by simp⟩
      | none =>
        cases hn : net (buildUrl st.debouncedQuery st.mode st.page) with
        | failure msg => exact ⟨[], by simp [getPhotosComplete, hn]⟩
        | success data =>
          exact ⟨pickResults st.debouncedQuery data,
            by simp [getPhotosComplete, hn]⟩

/-- C4 (witness): at the initial state the observer bumps the page, the
page effect at page 2 calls `getPhotos(2, false)`, and the fetch appends. -/
theorem pagination_appends_witness :
    observerStep initialState true = { initialState with page := initialState.page + 1 } ∧
    pageEffectCall { initialState with page := 2 } = some (2, false) ∧
    (∃ suffix, (getPhotos true initialState initialState.page false
      (fun _ => FetchResult.success { asList := stalePage, results := [] })).1.photos =
        initialState.photos ++ suffix) :=
  ⟨pagination_appends.1 initialState rfl,
    pagination_appends.2.1 { initialState with page := 2 } (by decide),
    pagination_appends.2.2 initialState true
      (fun _ => FetchResult.success { asList := stalePage, results := [] })⟩

/-- C5: with an empty debounced query the request URL is the photos
endpoint ordered by the current mode (which is always `"popular"` or
`"latest"`); with a non-empty debounced query it is the search endpoint
carrying that query, and the committed photos are the response's
`results` field. -/
theorem url_and_results (q : String) (m : Mode) (p : Nat) (data : ApiData) :
    (q = "" →
      buildUrl q m p = "https://api.unsplash.com/photos?page=" ++ toString p ++
        "&per_page=20&order_by=" ++ m.str ∧
      (m.str = "popular" ∨ m.str = "latest")) ∧
    (q ≠ "" →
      buildUrl q m p = "https://api.unsplash.com/search/photos?page=" ++
        toString p ++ "&per_page=20&query=" ++ q ∧
      pickResults q data = data.results) := by
  constructor
  · intro h
    subst h
    exact ⟨rfl, by cases m <;> simp [Mode.str]⟩
  · intro h
    rw [buildUrl, if_neg h]
    exact ⟨rfl, by rw [pickResults, if_neg h]⟩

/-- C5 (witness): the two URL shapes at page 1, popular mode, query
`"cats"`. -/
theorem url_and_results_witness :
    (buildUrl "" Mode.popular 1 = "https://api.unsplash.com/photos?page=" ++
        toString 1 ++ "&per_page=20&order_by=" ++ Mode.popular.str ∧
      (Mode.popular.str = "popular" ∨ Mode.popular.str = "latest")) ∧
    (buildUrl "cats" Mode.popular 1 =
        "https://api.unsplash.com/search/photos?page=" ++ toString 1 ++
          "&per_page=20&query=" ++ "cats" ∧
      pickResults "cats" { asList := [], results := freshPage } =
        ApiData.results { asList := [], results := freshPage }) :=
  ⟨(url_and_results "" Mode.popular 1 { asList := [], results := freshPage }).1 rfl,
    (url_and_results "cats" Mode.popular 1
      { asList := [], results := freshPage }).2 (by decide)⟩

/-- C6: every history change is persisted to `localStorage` under
`"search-history"` as its JSON serialization (touching no other key), the
round-trip `parseHistory ∘ stringifyHistory` is the identity, and the
startup effect restores exactly the stored list. -/
theorem history_persistence_roundtrip :
    (∀ st : AppState, (persistHistoryEffect st).localStore "search-history" =
      some (stringifyHistory st.history)) ∧
    (∀ st : AppState, ∀ k, k ≠ "search-history" →
      (persistHistoryEffect st).localStore k = st.localStore k) ∧
    (∀ l : List String, parseHistory (stringifyHistory l) = some l) ∧
    (∀ (st : AppState) (l : List String),
      st.localStore "search-history" = some (stringifyHistory l) →
      loadHistoryEffect st = some { st with history := l }) := by
  refine ⟨?_, ?_, parseHistory_stringifyHistory, ?_⟩
  · intro st
    simp [persistHistoryEffect]
  · intro st k hk
    simp [persistHistoryEffect, hk]
  · intro st l hst
    have hne : stringifyHistory l ≠ "" := by
      rw [stringifyHistory]
      intro hcon
      have : ('[' :: (elemsChars l ++ [']'])) = ([] : List Char) :=
        congrArg String.data hcon
      exact List.noConfusion this
    rw [loadHistoryEffect, hst]
    simp [hne, parseHistory_stringifyHistory]

/-- C6 (witness): persisting the history `["cats"]` stores its JSON text,
leaves another key alone, and reloading restores `["cats"]`. -/
theorem history_persistence_roundtrip_witness :
    (persistHistoryEffect { initialState with history := ["cats"] }).localStore
      "search-history" = some (stringifyHistory ["cats"]) ∧
    (persistHistoryEffect { initialState with history := ["cats"] }).localStore
      "other" = ({ initialState with history := ["cats"] } : AppState).localStore
        "other" ∧
    parseHistory (stringifyHistory ["cats"]) = some ["cats"] ∧
    loadHistoryEffect (persistHistoryEffect { initialState with history := ["cats"] }) =
      some { persistHistoryEffect { initialState with history := ["cats"] } with
        history := ["cats"] } :=
  ⟨history_persistence_roundtrip.1 { initialState with history := ["cats"] },
    history_persistence_roundtrip.2.1 { initialState with history := ["cats"] }
      "other" (by decide),
    history_persistence_roundtrip.2.2.1 ["cats"],
    history_persistence_roundtrip.2.2.2
      (persistHistoryEffect { initialState with history := ["cats"] }) ["cats"]
      (history_persistence_roundtrip.1 { initialState with history := ["cats"] })⟩

/-- C7: the source has no protection against races between an in-flight
request and a newer one.  In the interleaving of `raceFinal` — popular-feed
request `r1` starts, the query switches to `"cats"` and starts `r2`, the
NEWER `r2` completes first, then the stale `r1` arrives — the stale popular
response is still committed: the final photo list is the stale page even
though the debounced query is `"cats"`, and both responses sit in the
cache. -/
theorem race_stale_commit :
    raceFinal.debouncedQuery = "cats" ∧
    raceFinal.photos = stalePage ∧
    raceFinal.cache "popular" 1 = some stalePage ∧
    raceFinal.cache "cats" 1 = some freshPage ∧
    stalePage ≠ freshPage :=
  ⟨rfl, rfl, rfl, rfl, by decide⟩

/-- C8 (counterexample): a replacing search served from the cache replaces
the photo list WITHOUT putting its query at the head of the history.
Searching `"cats"`, then `"dogs"`, then `"cats"` again: the third search
succeeds with the non-empty debounced query `"cats"` and replaces the photo
list with the cats page, yet the history stays `["dogs", "cats"]` — its
first element is not the query just searched. -/
theorem history_cacheHit_counterexample :
    cacheHitSearchFinal.debouncedQuery = "cats" ∧
    cacheHitSearchFinal.photos = catsPage ∧
    catsPage ≠ [] ∧
    cacheHitSearchFinal.history = ["dogs", "cats"] ∧
    cacheHitSearchFinal.history.head? ≠ some "cats" :=
  ⟨rfl, rfl, by decide, rfl, by decide⟩

/-- C8 (amended): a successful replacing search with a non-empty captured
query that COMPLETES A FETCH sets the history to `pushHistory` of that
query, whose result has the query as head, length at most 5, and — when
the previous history had no duplicates — no duplicates either; a replacing
search served from the cache leaves the history unchanged. -/
theorem history_invariant (q : String) (prev : List String) (hq : q ≠ "") :
    (∀ (st : AppState) (req : AsyncRequest) (data : ApiData),
      req.replace = true → req.usedQuery = q → st.history = prev →
      (getPhotosComplete st req (FetchResult.success data)).history =
        pushHistory q prev) ∧
    (pushHistory q prev).head? = some q ∧
    (pushHistory q prev).length ≤ 5 ∧
    (prev.Nodup → (pushHistory q prev).Nodup) ∧
    (∀ (st : AppState) (pageNum : Nat) (replace : Bool)
        (cached : List Photo) (net : String → FetchResult),
      st.cache (cacheKeyOf st.debouncedQuery st.mode) pageNum = some cached →
      (getPhotos true st pageNum replace net).1.history = st.history) := by
  refine ⟨?_, ?_, ?_, ?_, ?_⟩
  · intro st req data hrep huse hhist
    simp [getPhotosComplete, hrep, huse, hq, hhist]
  · rw [pushHistory]
    rw [show (5 : Nat) = 4 + 1 from rfl, List.take_succ_cons]
    rfl
  · rw [pushHistory]
    simp [List.length_take]
  · intro hnd
    refine List.Sublist.nodup (List.take_sublist 5 _) ?_
    rw [List.nodup_cons]
    constructor
    · intro hmem
      have := (List.mem_filter.mp hmem).2
      simp at this
    · exact hnd.filter _
  · intro st pageNum replace cached net hhit
    unfold getPhotos getPhotosStart
    simp [hhit]

/-- C8 (witness): searching `"cats"` over the history
`["a", "cats", "b"]` moves `"cats"` to the front and keeps the invariant;
a cache-served replacing search for `"cats"` leaves the history alone. -/
theorem history_invariant_witness :
    (getPhotosComplete { initialState with history := ["a", "cats", "b"] }
        { url := "u", cacheKey := "cats", pageNum := 1, replace := true,
          usedQuery := "cats" }
        (FetchResult.success { asList := [], results := [] })).history =
      pushHistory "cats" ["a", "cats", "b"] ∧
    (pushHistory "cats" ["a", "cats", "b"]).head? = some "cats" ∧
    (pushHistory "cats" ["a", "cats", "b"]).length ≤ 5 ∧
    (pushHistory "cats" ["a", "cats", "b"]).Nodup ∧
    (getPhotos true
      { initialState with
        debouncedQuery := "cats"
        history := ["dogs"]
        cache := Cache.empty.store "cats" 1 catsPage } 1 true
      (fun _ => FetchResult.failure "unused")).1.history = ["dogs"] :=
  ⟨(history_invariant "cats" ["a", "cats", "b"] (by decide)).1
      { initialState with history := ["a", "cats", "b"] }
      { url := "u", cacheKey := "cats", pageNum := 1, replace := true,
        usedQuery := "cats" }
      { asList := [], results := [] } rfl rfl rfl,
    (history_invariant "cats" ["a", "cats", "b"] (by decide)).2.1,
    (history_invariant "cats" ["a", "cats", "b"] (by decide)).2.2.1,
    (history_invariant "cats" ["a", "cats", "b"] (by decide)).2.2.2.1 (by decide),
    (history_invariant "cats" ["a", "cats", "b"] (by decide)).2.2.2.2
      { initialState with
        debouncedQuery := "cats"
        history := ["dogs"]
        cache := Cache.empty.store "cats" 1 catsPage } 1 true catsPage
      (fun _ => FetchResult.failure "unused") rfl⟩

/-- C9: when no access key is configured, `getPhotos` sets the error to
`"No API key found."` and returns before fetching: the result state differs
from the input only in the error field (photos, page, loading flag, cache
and history untouched) and the list of fetched URLs is empty. -/
theorem getPhotos_noKey (st : AppState) (p : Nat) (replace : Bool)
    (net : String → FetchResult) :
    getPhotos false st p replace net =
      ({ st with error := some "No API key found." }, []) := rfl

/-- C10: clicking a history term sets both the raw and the debounced query
to the term at once — no timer event is involved — and (on a cache miss)
the reset effect immediately starts the search request carrying that term:
the term is the cache key and the captured query, and the URL is the search
endpoint for the term. -/
theorem historyClick_immediate (st : AppState) (term : String)
    (hterm : term ≠ "") (hmiss : st.cache term 1 = none) :
    (handleHistoryClick st term).query = term ∧
    (handleHistoryClick st term).debouncedQuery = term ∧
    cacheKeyOf term st.mode = term ∧
    resetEffect true (handleHistoryClick st term) =
      .fetching
        { st with
          query := term
          debouncedQuery := term
          photos := []
          page := 1
          loading := true
          error := none }
        { url := buildUrl term st.mode 1, cacheKey := term, pageNum := 1,
          replace := true, usedQuery := term } := by
  have hkey : cacheKeyOf term st.mode = term := by
    rw [cacheKeyOf, if_neg hterm]
  refine ⟨rfl, rfl, hkey, ?_⟩
  unfold resetEffect getPhotosStart handleHistoryClick
  simp [hkey, hmiss]

/-- C10 (witness): clicking `"cats"` at the initial state. -/
theorem historyClick_immediate_witness :
    (handleHistoryClick initialState "cats").query = "cats" ∧
    (handleHistoryClick initialState "cats").debouncedQuery = "cats" ∧
    cacheKeyOf "cats" initialState.mode = "cats" ∧
    resetEffect true (handleHistoryClick initialState "cats") =
      .fetching
        { initialState with
          query := "cats"
          debouncedQuery := "cats"
          photos := []
          page := 1
          loading := true
          error := none }
        { url := buildUrl "cats" initialState.mode 1, cacheKey := "cats",
          pageNum := 1, replace := true, usedQuery := "cats" } :=
  historyClick_immediate initialState "cats" (by decide) rfl

end Gallery
